import Mathlib

/-!
Verification development for the F1 live-dashboard refresh engine
(`src/main.py`, class `F1Dashboard`).

The embedding follows the source's control flow statement by statement.
External collaborators (the fastf1 telemetry provider and the matplotlib
renderer) are out of scope per the design document; each of their calls is
modelled as an abstract operation over a per-session data snapshot, and each
such model carries a doc comment naming the call it stands for.  Machine
drawing is modelled as a list of renderer calls (`DrawOp`) per axes object, so
that one refresh tick is a pure function from the session state and the
previous panels to the new panels.
-/

/-- A participant identifier (car/driver number).  The source treats driver
identifiers both as join keys and (in the tyre-strategy text placement
`0.9 - 0.1 * driver`) as numbers, so we model them as naturals. -/
abbrev Driver := Nat

/-- One lap record, per the session data model: owning participant, lap time
in seconds when convertible (`none` models a NaT/unconvertible duration), the
ordered tyre-compound sequence, the integer rank (`Position` column), and the
ordered positional telemetry samples of the lap. -/
structure LapRecord where
  participant : Driver
  lapTime : Option Rat
  compounds : List String
  position : Nat
  posSamples : List (Int × Int)
deriving DecidableEq

/-- The provider's full reported state for one session: the participant list
(`session.drivers`, in the provider's reported order) and the lap records
(`session.laps`).  A fastf1 `Laps` object keeps a reference to its session, so
the local variable `laps` of the source is modelled by this whole snapshot. -/
structure Snapshot where
  participants : List Driver
  laps : List LapRecord
deriving DecidableEq

/-- Models `laps.pick_driver(d)`: the lap records of one participant, in
order. -/
def pickDriver (laps : List LapRecord) (d : Driver) : List LapRecord :=
  laps.filter (fun l => l.participant == d)

/-- Models `Laps.pick_fastest()` on one result set: the lap with the smallest
convertible lap time, earlier lap winning ties; `none` when no lap has a
convertible time (fastf1 returns `None` in that case, and any attribute or
column access on that `None` raises). -/
def pickFastestLap : List LapRecord → Option LapRecord
  | [] => none
  | l :: ls =>
    match pickFastestLap ls with
    | none => if l.lapTime.isSome then some l else none
    | some b =>
      match l.lapTime, b.lapTime with
      | none, _ => some b
      | some _, none => some l
      | some t, some tb => if t ≤ tb then some l else some b

/-- The per-participant fastest-lap rows, in the provider's participant
order: participants with no convertible lap contribute no row. -/
def participantRows (s : Snapshot) : List LapRecord :=
  s.participants.filterMap (fun d => pickFastestLap (pickDriver s.laps d))

/-- Models the dashboard's table-style use of `laps.pick_fastest()` (lines
152-154 and 168): the source indexes the result by the columns `LapTime`,
`Driver` and `Position` as a per-participant table, which we model as each
participant's fastest convertible lap in the provider's participant order
(the design document fixes participant iteration order to the provider's
reported order).  As with fastf1's `pick_fastest`, the result is `none` when
no participant has a convertible lap time, and every column access on that
`None` raises. -/
def pickFastestTable (s : Snapshot) : Option (List LapRecord) :=
  if participantRows s = [] then none else some (participantRows s)

/-- Models `laps.tire_strategies()` (line 136), a provider-side helper that
is not part of this repository.  Modelled from the spec: a mapping from each
participant (provider order) to their ordered compound sequence; a
participant with no compound data contributes no row, and total absence of
strategy data raises, which the caller turns into the panel fallback. -/
def tireStrategies (s : Snapshot) : Except String (List (Driver × List String)) :=
  let rows := s.participants.filterMap (fun d =>
    let cs := (pickDriver s.laps d).foldr (fun l acc => l.compounds ++ acc) []
    if cs = [] then none else some (d, cs))
  if rows = [] then Except.error ("no strategy data") else Except.ok rows

/-- One renderer call issued to an axes object.  `naPlaceholder` is the
static centred `'N/A'` text of the fallback branches; `errorText` is the
distinct centred `f"Error: {e}"` text drawn by the positions branch (line
125); `strategyRow` is one tyre-strategy text row (text at
`(0.1, 0.9 - 0.1 * driver)`, joining the compounds with arrows - the
coordinates and the join string are styling and are not recorded). -/
inductive DrawOp where
  | trackOutline
  | scatter (d : Driver) (pts : List (Int × Int))
  | legend
  | naPlaceholder
  | errorText (msg : String)
  | strategyRow (d : Driver) (strategy : List String)
  | bar (ds : List Driver) (ts : List Rat)
  | xticklabels (ds : List Driver)
  | ylabel (label : String)
  | pie (weights : List Nat) (labels : List Driver)
deriving DecidableEq

/-- One axes object: its current title and the renderer calls drawn on it
since the last clear, in order. -/
structure Axes where
  title : String
  ops : List DrawOp
deriving DecidableEq

/-- Models `ax.clear()`: removes every drawn artist and resets the title. -/
def Axes.clear (_a : Axes) : Axes := { title := "", ops := [] }

/-- Models one drawing call on an axes object (append-only until cleared). -/
def Axes.draw (a : Axes) (op : DrawOp) : Axes := { a with ops := a.ops ++ [op] }

/-- Models `ax.set_title(t, ...)`. -/
def Axes.setTitle (a : Axes) (t : String) : Axes := { a with title := t }

/-- A fresh axes object carrying only a title. -/
def axTitled (t : String) : Axes := { title := t, ops := [] }

/-- The fallback branch shared by the three secondary panels: draw the static
centred `'N/A'` text, then set the panel title (lines 143-148, 159-164,
172-177). -/
def naFallback (a : Axes) (t : String) : Axes := (a.draw DrawOp.naPlaceholder).setTitle t

/-- A renderer call is a fallback artifact when it is the `'N/A'` placeholder
or the error text; every other call belongs to a successfully derived view. -/
def DrawOp.ok : DrawOp → Bool
  | DrawOp.naPlaceholder => false
  | DrawOp.errorText _ => false
  | _ => true

/-- A panel is in its Ready state when everything drawn on it since the last
clear belongs to a successfully derived view (no placeholder, no error
text). -/
def Axes.ready (a : Axes) : Bool := a.ops.all DrawOp.ok

/-- The weights of every pie drawn on an axes object, in order. -/
def Axes.pieWeights (a : Axes) : List Nat :=
  a.ops.foldr (fun op acc =>
    match op with
    | DrawOp.pie ws _ => ws ++ acc
    | _ => acc) []

/-- The Python locals of one `update_dashboard` call that are shared between
the four panel branches: `laps` (bound at lines 114 and 133) and `drivers`
(bound at lines 115 and 154).  `none` models an unbound name, whose read
raises `NameError` inside the enclosing `try`. -/
structure Locals where
  laps : Option Snapshot
  drivers : Option (List Driver)
deriving DecidableEq

/-- Fault injection for the isolation property: each flag makes the matching
view derivation raise unconditionally at its derivation call. -/
structure Inject where
  positions : Bool
  tire : Bool
  lapTimes : Bool
  standings : Bool
deriving DecidableEq

/-- No injected fault: the tick exactly as in the source. -/
def noFaults : Inject := ⟨false, false, false, false⟩

/-- The message of the exception raised when session data is accessed on a
session whose load did not complete (fastf1's `DataNotLoadedError`). -/
def dataNotLoadedMsg : String := "DataNotLoadedError"

/-- The message standing for an injected derivation failure. -/
def injectedMsg : String := "injected fault"

/-- The message of the exception raised at line 119 when
`pick_fastest()` returned `None` and `.get_pos_data()` is called on it. -/
def noLapMsg : String := "AttributeError"

/-- The scatter loop of lines 117-121: for each driver in order, pick their
fastest lap and scatter its positional samples; a driver with no convertible
lap makes `pick_fastest()` return `None` and the subsequent `get_pos_data()`
raise, aborting the whole loop (there is no per-driver guard in
`update_dashboard`).  Returns the axes with the scatters drawn so far and the
pending exception, if any. -/
def scatterAll (s : Snapshot) : List Driver → Axes → Axes × Option String
  | [], ax => (ax, none)
  | d :: ds, ax =>
    match pickFastestLap (pickDriver s.laps d) with
    | none => (ax, some noLapMsg)
    | some lap => scatterAll s ds (ax.draw (DrawOp.scatter d lap.posSamples))

/-- The body of the positions `try` after the session accesses: run the
scatter loop; on success add the legend (line 123), on failure the `except`
draws the error text over whatever was already scattered (line 125). -/
def positionsBody (s : Snapshot) (ax : Axes) : Axes :=
  let r := scatterAll s s.participants ax
  match r.2 with
  | none => r.1.draw DrawOp.legend
  | some e => r.1.draw (DrawOp.errorText e)

/-- The positions panel of one tick (lines 110-125): clear, set the title,
then under the failure boundary read the session data and run the scatter
loop; any exception is caught and rendered as centred error text. -/
def posAxFull (inj : Bool) (session : Option Snapshot) (ax0 : Axes) : Axes :=
  let ax := (ax0.clear).setTitle ("Live Driver Positions")
  match session with
  | none => ax.draw (DrawOp.errorText dataNotLoadedMsg)
  | some s =>
    if inj then ax.draw (DrawOp.errorText injectedMsg)
    else positionsBody s ax

/-- The locals after the positions block: with a loaded session, lines
114-115 bind `laps` and `drivers` before the derivation loop runs, so the
bindings happen whether or not the derivation itself fails; with no session
data, line 114 raises and both names stay unbound. -/
def posLocals (session : Option Snapshot) (lv : Locals) : Locals :=
  match session with
  | none => lv
  | some s => ⟨some s, some s.participants⟩

/-- The tyre-strategies panel of one tick (lines 132-148): rebind `laps`,
derive the strategies, draw one text row per participant, set the title; any
exception yields the `'N/A'` fallback with the title intact. -/
def tireAxFull (inj : Bool) (session : Option Snapshot) (ax0 : Axes) : Axes :=
  match session with
  | none => naFallback ax0 ("Tyre Strategies")
  | some s =>
    if inj then naFallback ax0 ("Tyre Strategies")
    else
      match tireStrategies s with
      | Except.error _ => naFallback ax0 ("Tyre Strategies")
      | Except.ok rows =>
        (rows.foldl (fun a r => a.draw (DrawOp.strategyRow r.1 r.2)) ax0).setTitle
          ("Tyre Strategies")

/-- The locals after the tyre block: line 133 rebinds `laps` (to the same
session data) before the derivation call; with no session data the rebinding
raises and the locals are unchanged. -/
def tireLocals (session : Option Snapshot) (lv : Locals) : Locals :=
  match session with
  | none => lv
  | some s => ⟨some s, lv.drivers⟩

/-- The lap-times panel of one tick (lines 150-164): read the shared `laps`
local (`NameError` if unbound), take the fastest-lap table, extract the
seconds and the driver column, draw the bar chart with its tick labels and
axis label, set the title; any exception yields the `'N/A'` fallback with the
title intact. -/
def lapAx (inj : Bool) (olaps : Option Snapshot) (ax0 : Axes) : Axes :=
  match olaps with
  | none => naFallback ax0 ("Current Lap Times")
  | some s =>
    if inj then naFallback ax0 ("Current Lap Times")
    else
      match pickFastestTable s with
      | none => naFallback ax0 ("Current Lap Times")
      | some rows =>
        ((((ax0.draw (DrawOp.bar (rows.map (fun r => r.participant))
            (rows.map (fun r => r.lapTime.getD 0)))).draw
            (DrawOp.xticklabels (rows.map (fun r => r.participant)))).draw
            (DrawOp.ylabel ("Lap Time (seconds)"))).setTitle ("Current Lap Times"))

/-- The `drivers` local after the lap-times block: line 154 rebinds it to the
table's driver column only when the block reached that line (shared `laps`
bound, no injected fault, table not `None`); otherwise the previous binding
survives into the standings block. -/
def ltDrivers (inj : Bool) (olaps : Option Snapshot) (old : Option (List Driver)) :
    Option (List Driver) :=
  match olaps with
  | none => old
  | some s =>
    if inj then old
    else
      match pickFastestTable s with
      | none => old
      | some rows => some (rows.map (fun r => r.participant))

/-- The standings panel of one tick (lines 166-177): read the shared `laps`
local, take the fastest-lap table's `Position` column, and draw the pie with
those ranks as slice weights and the shared `drivers` local as labels; the
renderer rejects a label list whose length differs from the weight list, and
any exception yields the `'N/A'` fallback with the title intact. -/
def standAx (inj : Bool) (lv : Locals) (ax0 : Axes) : Axes :=
  match lv.laps with
  | none => naFallback ax0 ("Driver Positions")
  | some s =>
    if inj then naFallback ax0 ("Driver Positions")
    else
      match pickFastestTable s with
      | none => naFallback ax0 ("Driver Positions")
      | some rows =>
        match lv.drivers with
        | none => naFallback ax0 ("Driver Positions")
        | some ds =>
          if (rows.map (fun r => r.position)).length = ds.length then
            (ax0.draw (DrawOp.pie (rows.map (fun r => r.position)) ds)).setTitle
              ("Driver Positions")
          else naFallback ax0 ("Driver Positions")

/-- The four panels of the dashboard figure. -/
structure Panels where
  ax1 : Axes
  ax2 : Axes
  ax3 : Axes
  ax4 : Axes
deriving DecidableEq

/-- One refresh tick, `update_dashboard` (lines 109-179): the positions
block, the shared clear of the three secondary axes (lines 129-130), then the
tyre, lap-times and standings blocks, each under its own failure boundary,
threading the shared `laps`/`drivers` locals between them; `plt.tight_layout()`
then recomposes the frame unconditionally.  `inj` injects at most one forced
derivation failure for the isolation property. -/
def updateDashboard (inj : Inject) (session : Option Snapshot) (p : Panels) : Panels :=
  let lv0 : Locals := ⟨none, none⟩
  let lv1 := posLocals session lv0
  let lv2 := tireLocals session lv1
  let lv3 : Locals := ⟨lv2.laps, ltDrivers inj.lapTimes lv2.laps lv2.drivers⟩
  { ax1 := posAxFull inj.positions session (p.ax1.clear)
    ax2 := tireAxFull inj.tire session (p.ax2.clear)
    ax3 := lapAx inj.lapTimes lv2.laps (p.ax3.clear)
    ax4 := standAx inj.standings lv3 (p.ax4.clear) }

/-- The frame composer: `plt.tight_layout()` re-lays out the four panels into
the fixed grid; it is reached on every tick because every panel branch
catches its own exceptions. -/
def composeFrame (p : Panels) : List Axes := [p.ax1, p.ax2, p.ax3, p.ax4]

/-- The four view kinds, for stating the fault-isolation property. -/
inductive Fault where
  | positions
  | tire
  | lapTimes
  | standings
deriving DecidableEq, Fintype

/-- The injection vector that makes exactly one derivation always fail. -/
def Inject.single : Fault → Inject
  | Fault.positions => ⟨true, false, false, false⟩
  | Fault.tire => ⟨false, true, false, false⟩
  | Fault.lapTimes => ⟨false, false, true, false⟩
  | Fault.standings => ⟨false, false, false, true⟩

/-- The panel owned by each view kind. -/
def Panels.get (p : Panels) : Fault → Axes
  | Fault.positions => p.ax1
  | Fault.tire => p.ax2
  | Fault.lapTimes => p.ax3
  | Fault.standings => p.ax4

/-- The axes of the figure as built by `__init__` (lines 27-50): the primary
axes show the track outline, or the `'N/A'` placeholder when the circuit data
is unavailable, under the `Track Layout` title; the other three axes start
empty. -/
def initPanels (trackOk : Bool) : Panels :=
  { ax1 :=
      if trackOk then { title := "Track Layout", ops := [DrawOp.trackOutline] }
      else { title := "Track Layout", ops := [DrawOp.naPlaceholder] }
    ax2 := { title := "", ops := [] }
    ax3 := { title := "", ops := [] }
    ax4 := { title := "", ops := [] } }

/-- The observable state of one `F1Dashboard` object: the session data
(`none` while the session is unloaded), the figure's panels and the repeating
timer (both absent when construction returned early), and the number of
provider load calls performed so far. -/
structure DashState where
  session : Option Snapshot
  panels : Option Panels
  animCreated : Bool
  loads : Nat
deriving DecidableEq

/-- The constructor `__init__` (lines 9-57): it always performs one provider
load call; if that load raises, the handler prints and returns early, so the
figure, the four panels and the repeating timer are never created; otherwise
the panels and the five-second `FuncAnimation` timer are set up. -/
def initDashboard (loadResult : Option Snapshot) (trackOk : Bool) : DashState :=
  match loadResult with
  | none => { session := none, panels := none, animCreated := false, loads := 1 }
  | some s =>
    { session := some s
      panels := some (initPanels trackOk)
      animCreated := true
      loads := 1 }

/-- One timer callback on a dashboard object: `update_dashboard` starts with
`self.ax1.clear()` (line 110), which raises `AttributeError` outside every
failure boundary when construction returned early and the axes were never
created; otherwise it replaces the panels with the freshly derived ones and
touches neither the session, the timer, nor the load count. -/
def tickState (inj : Inject) (d : DashState) : Except String DashState :=
  match d.panels with
  | none => Except.error ("AttributeError")
  | some p => Except.ok { d with panels := some (updateDashboard inj d.session p) }

/-- Advancing the timer: the `FuncAnimation` callback fires only when the
animation was created; a dashboard whose construction returned early never
ticks. -/
def advanceTimer (d : DashState) : Except String DashState :=
  if d.animCreated then tickState noFaults d else Except.ok d

/-- The loop condition of the `while True:` at line 93 of
`fetch_live_positions`: literally the constant `True`; no cancellation flag
or condition is consulted at the top of an iteration. -/
def fetchLiveCond (_d : DashState) : Bool := true

/-- One iteration of the `fetch_live_positions` loop body (lines 94-107):
reload the session from the provider (`session.load(live=True)`), clear the
figure, and scatter each driver's fastest-lap positional data under a
per-driver `try`/`except` that merely skips drivers without data, then draw
the legend.  Each iteration performs exactly one provider load call. -/
def fetchLivePositionsIter (fresh : Snapshot) (d : DashState) : DashState × List DrawOp :=
  ({ d with session := some fresh, loads := d.loads + 1 },
    (fresh.participants.filterMap (fun dr =>
      match pickFastestLap (pickDriver fresh.laps dr) with
      | none => none
      | some lap => some (DrawOp.scatter dr lap.posSamples))) ++ [DrawOp.legend])

/-- The scatter drawn by `plot_driver_positions` for one driver, if any
(lines 76-83): take the driver's laps; when non-empty, take the latest lap
(`iloc[-1]`) and, when its positional samples are non-empty, scatter them;
otherwise the driver is simply skipped. -/
def latestScatter (s : Snapshot) (d : Driver) : Option DrawOp :=
  match (pickDriver s.laps d).getLast? with
  | none => none
  | some lap => if lap.posSamples = [] then none else some (DrawOp.scatter d lap.posSamples)

/-- The one-shot static plot `plot_driver_positions` (lines 59-89): the track
outline when available, then one scatter per driver that has a latest lap
with non-empty samples, then the legend. -/
def plotDriverPositions (s : Snapshot) (trackOk : Bool) : List DrawOp :=
  (if trackOk then [DrawOp.trackOutline] else []) ++
    (s.participants.filterMap (fun d => latestScatter s d)) ++ [DrawOp.legend]

/-- The methods defined on class `F1Dashboard` in the source, in order of
definition. -/
def f1DashboardMethods : List String :=
  ["__init__", "plot_driver_positions", "fetch_live_positions", "update_dashboard", "show"]

/-- Scenario A's first lap: driver 1, 92.5 seconds, Soft then Medium,
rank 2. -/
def lapA1 : LapRecord :=
  { participant := 1
    lapTime := some (185 / 2)
    compounds := ["Soft", "Medium"]
    position := 2
    posSamples := [(0, 0)] }

/-- Scenario A's second lap: driver 44, 91.8 seconds, Medium then Hard,
rank 1. -/
def lapA44 : LapRecord :=
  { participant := 44
    lapTime := some (459 / 5)
    compounds := ["Medium", "Hard"]
    position := 1
    posSamples := [(1, 1)] }

/-- The two-participant Scenario A snapshot of the design document. -/
def scenarioA : Snapshot := { participants := [1, 44], laps := [lapA1, lapA44] }

/-- A snapshot in which driver 44 appears in the participant list but has no
lap records at all. -/
def snapNoLap44 : Snapshot := { participants := [1, 44], laps := [lapA1] }

/-- The tick state reached from a freshly constructed dashboard on Scenario A
after one timer callback (used to settle the re-acquisition claims). -/
def dAfterTick : DashState :=
  { session := some scenarioA
    panels := some (updateDashboard noFaults (some scenarioA) (initPanels true))
    animCreated := true
    loads := 1 }

/-- A dashboard state whose figure exists but whose per-tick session data
access fails (the provider-unavailable tick of the design document). -/
def dSessionGone : DashState :=
  { session := none, panels := some (initPanels true), animCreated := true, loads := 1 }

/-- The panels produced by a tick whose session data access fails: error text
on the positions panel, the static placeholder on the other three, every
title intact. -/
def sessionFailPanels : Panels :=
  { ax1 := { title := "Live Driver Positions", ops := [DrawOp.errorText dataNotLoadedMsg] }
    ax2 := { title := "Tyre Strategies", ops := [DrawOp.naPlaceholder] }
    ax3 := { title := "Current Lap Times", ops := [DrawOp.naPlaceholder] }
    ax4 := { title := "Driver Positions", ops := [DrawOp.naPlaceholder] } }


theorem mem_pickDriver {laps : List LapRecord} {d : Driver} {l : LapRecord}
    (h : l ∈ pickDriver laps d) : l.participant = d := by
  have h2 := (List.mem_filter.mp h).2
  simpa using h2

theorem pickFastestLap_mem : ∀ {ls : List LapRecord} {x : LapRecord},
    pickFastestLap ls = some x → x ∈ ls := by
  intro ls
  induction ls with
  | nil => intro x h; simp [pickFastestLap] at h
  | cons l ls ih =>
    intro x h
    rcases hrec : pickFastestLap ls with _ | b
    · rw [pickFastestLap, hrec] at h
      by_cases hl : l.lapTime.isSome
      · simp [hl] at h
        subst h
        exact List.mem_cons_self _ _
      · simp [hl] at h
    · rw [pickFastestLap, hrec] at h
      rcases hl : l.lapTime with _ | t <;> rcases hb : b.lapTime with _ | tb <;>
          simp [hl, hb] at h
      · subst h; exact List.mem_cons_of_mem _ (ih hrec)
      · subst h; exact List.mem_cons_of_mem _ (ih hrec)
      · subst h; exact List.mem_cons_self _ _
      · split at h
        · cases h; exact List.mem_cons_self _ _
        · cases h; exact List.mem_cons_of_mem _ (ih hrec)

theorem pickFastestLap_time_isSome : ∀ {ls : List LapRecord} {x : LapRecord},
    pickFastestLap ls = some x → x.lapTime.isSome = true := by
  intro ls
  induction ls with
  | nil => intro x h; simp [pickFastestLap] at h
  | cons l ls ih =>
    intro x h
    rcases hrec : pickFastestLap ls with _ | b
    · rw [pickFastestLap, hrec] at h
      by_cases hl : l.lapTime.isSome
      · simp [hl] at h; subst h; exact hl
      · simp [hl] at h
    · rw [pickFastestLap, hrec] at h
      rcases hl : l.lapTime with _ | t <;> rcases hb : b.lapTime with _ | tb <;>
          simp [hl, hb] at h
      · subst h; exact ih hrec
      · subst h; exact ih hrec
      · subst h; simp [hl]
      · split at h
        · cases h; simp [hl]
        · cases h; exact ih hrec

theorem pickFastestLap_eq_none_iff : ∀ (ls : List LapRecord),
    pickFastestLap ls = none ↔ ∀ l ∈ ls, l.lapTime = none := by
  intro ls
  induction ls with
  | nil => simp [pickFastestLap]
  | cons l ls ih =>
    rcases hrec : pickFastestLap ls with _ | b
    · rw [pickFastestLap, hrec]
      rcases hl : l.lapTime with _ | t
      · constructor
        · intro _ a ha
          rcases List.mem_cons.mp ha with rfl | ha'
          · exact hl
          · exact ih.mp hrec a ha'
        · intro _
          rfl
      · constructor
        · intro habs
          exfalso
          simp at habs
        · intro hall
          exfalso
          have hcon := hall l (List.mem_cons_self _ _)
          rw [hl] at hcon
          cases hcon
    · constructor
      · intro hnone
        exfalso
        rw [pickFastestLap, hrec] at hnone
        rcases hl : l.lapTime with _ | t <;> rcases hb : b.lapTime with _ | tb <;>
            simp [hl, hb] at hnone
        split at hnone <;> cases hnone
      · intro hall
        exfalso
        have hbmem := hall b (List.mem_cons_of_mem _ (pickFastestLap_mem hrec))
        have hs := pickFastestLap_time_isSome hrec
        rw [hbmem] at hs
        cases hs

theorem pickFastestTable_eq_none_iff (s : Snapshot) :
    pickFastestTable s = none ↔ participantRows s = [] := by
  unfold pickFastestTable
  split <;> simp_all

theorem pickFastestTable_eq_some {s : Snapshot} {rows : List LapRecord}
    (h : pickFastestTable s = some rows) :
    rows = participantRows s ∧ participantRows s ≠ [] := by
  unfold pickFastestTable at h
  split at h
  · cases h
  · exact ⟨(Option.some.inj h).symm, by assumption⟩

theorem participantRows_eq_nil_iff (s : Snapshot) :
    participantRows s = [] ↔
      ∀ d ∈ s.participants, ∀ l ∈ pickDriver s.laps d, l.lapTime = none := by
  unfold participantRows
  rw [List.filterMap_eq_nil_iff]
  constructor <;> intro h d hd
  · exact (pickFastestLap_eq_none_iff _).mp (h d hd)
  · exact (pickFastestLap_eq_none_iff _).mpr (h d hd)

theorem participantRows_spec (s : Snapshot) :
    ∀ r ∈ participantRows s, r.participant ∈ s.participants ∧
      pickFastestLap (pickDriver s.laps r.participant) = some r := by
  intro r hr
  unfold participantRows at hr
  rcases List.mem_filterMap.mp hr with ⟨d, hd, hpick⟩
  have hpart : r.participant = d := mem_pickDriver (pickFastestLap_mem hpick)
  rw [hpart]
  exact ⟨hd, hpick⟩

theorem filterMapFastest_map (laps : List LapRecord) : ∀ (ds : List Driver),
    (∀ d ∈ ds, (pickFastestLap (pickDriver laps d)).isSome = true) →
    (ds.filterMap (fun d => pickFastestLap (pickDriver laps d))).map
      (fun r => r.participant) = ds := by
  intro ds
  induction ds with
  | nil => intro _; rfl
  | cons d ds ih =>
    intro h
    have hd := h d (List.mem_cons_self _ _)
    rcases hsome : pickFastestLap (pickDriver laps d) with _ | l
    · rw [hsome] at hd; cases hd
    · have hl : l.participant = d := mem_pickDriver (pickFastestLap_mem hsome)
      simp only [List.filterMap_cons, hsome, List.map_cons, hl]
      rw [ih (fun d' hd' => h d' (List.mem_cons_of_mem _ hd'))]

theorem participantRows_map (s : Snapshot)
    (h : ∀ d ∈ s.participants, (pickFastestLap (pickDriver s.laps d)).isSome = true) :
    (participantRows s).map (fun r => r.participant) = s.participants :=
  filterMapFastest_map s.laps s.participants h

theorem ready_draw (a : Axes) (op : DrawOp) : (a.draw op).ready = (a.ready && op.ok) := by
  simp [Axes.draw, Axes.ready]

theorem ready_setTitle (a : Axes) (t : String) : (a.setTitle t).ready = a.ready := rfl

theorem scatterAll_fst_ready (s : Snapshot) : ∀ (ds : List Driver) (ax : Axes),
    ((scatterAll s ds ax).1).ready = ax.ready := by
  intro ds
  induction ds with
  | nil => intro ax; rfl
  | cons d ds ih =>
    intro ax
    rcases h : pickFastestLap (pickDriver s.laps d) with _ | lap
    · simp [scatterAll, h]
    · simp [scatterAll, h, ih, ready_draw, DrawOp.ok]

theorem scatterAll_snd_none_iff (s : Snapshot) : ∀ (ds : List Driver) (ax : Axes),
    (scatterAll s ds ax).2 = none ↔
      ∀ d ∈ ds, (pickFastestLap (pickDriver s.laps d)).isSome = true := by
  intro ds
  induction ds with
  | nil => intro ax; simp [scatterAll]
  | cons d ds ih =>
    intro ax
    rcases h : pickFastestLap (pickDriver s.laps d) with _ | lap
    · simp [scatterAll, h]
    · simp [scatterAll, h, ih]

theorem posBody_ready_iff (s : Snapshot) (t : String) :
    (positionsBody s (axTitled t)).ready = true ↔
      ∀ d ∈ s.participants, (pickFastestLap (pickDriver s.laps d)).isSome = true := by
  rcases h : (scatterAll s s.participants (axTitled t)).2 with _ | e
  · have hb : positionsBody s (axTitled t)
        = (scatterAll s s.participants (axTitled t)).1.draw DrawOp.legend := by
      simp only [positionsBody]
      rw [h]
    rw [hb, ready_draw, scatterAll_fst_ready]
    simp only [axTitled, Axes.ready, List.all_nil, Bool.true_and, DrawOp.ok]
    simp only [true_iff]
    exact (scatterAll_snd_none_iff s s.participants (axTitled t)).mp h
  · have hb : positionsBody s (axTitled t)
        = (scatterAll s s.participants (axTitled t)).1.draw (DrawOp.errorText e) := by
      simp only [positionsBody]
      rw [h]
    rw [hb, ready_draw]
    simp only [DrawOp.ok, Bool.and_false]
    constructor
    · intro hfalse; cases hfalse
    · intro hall
      have hn := (scatterAll_snd_none_iff s s.participants (axTitled t)).mpr hall
      rw [h] at hn
      cases hn

/-- C9: rendering the same ViewModel into the panels twice in a row produces
the same visual output both times.  Because every panel's drawable is cleared
before its view is re-rendered (lines 110 and 129-130), the tick's output
does not depend on what was previously drawn, so repeating a tick with the
same session data and the same fault pattern reproduces the panels exactly -
no prior draws accumulate. -/
theorem c9_render_idempotent (inj : Inject) (sess : Option Snapshot) (p : Panels) :
    updateDashboard inj sess (updateDashboard inj sess p) = updateDashboard inj sess p := rfl

/-- C10: when the session load raises during construction, the constructor
catches the error and returns early: the panels and the repeating timer are
never created, advancing the timer performs no tick at all, and invoking the
refresh cycle directly raises an attribute error (line 110 runs outside every
failure boundary) instead of showing the N/A placeholders. -/
theorem c10_partial_construction (trackOk : Bool) (inj : Inject) :
    (initDashboard none trackOk).panels = none ∧
    (initDashboard none trackOk).animCreated = false ∧
    tickState inj (initDashboard none trackOk) = Except.error ("AttributeError") ∧
    advanceTimer (initDashboard none trackOk) = Except.ok (initDashboard none trackOk) :=
  ⟨rfl, rfl, rfl, rfl⟩

/-- C7: class `F1Dashboard` defines no `stop` method at all - the repeating
`FuncAnimation` timer created at line 52 is never cancelled by any dashboard
operation, so the deterministic-stop contract of the design document has no
implementation in the source. -/
theorem c7_no_stop_method : "stop" ∉ f1DashboardMethods := by
  decide

/-- C8: the long-running live-fetch loop (line 93) is `while True:` - its
loop condition is the constant true, so no cancellation condition is checked
at the top of any iteration and the loop can only terminate with the
process. -/
theorem c8_live_loop_unconditional : ∀ d : DashState, fetchLiveCond d = true :=
  fun _ => rfl

/-- C3, counterexample: on a tick whose session data access fails, the
positions panel does not show the static N/A placeholder - it shows the
distinct error-message text drawn by its own handler (line 125), so not
every one of the four panels shows N/A. -/
theorem c3_snapshot_failure_counterexample :
    (updateDashboard noFaults none (initPanels true)).ax1.ops
        = [DrawOp.errorText dataNotLoadedMsg] ∧
    DrawOp.naPlaceholder ∉ (updateDashboard noFaults none (initPanels true)).ax1.ops :=
  ⟨rfl, by decide⟩

/-- C3, amended: on every tick whose session data access fails, the tyre,
lap-times and standings panels show the static N/A placeholder and the
positions panel shows an error-message text, each with its title intact; the
timer state and the load count are untouched, so the next tick retries
unconditionally. -/
theorem c3_snapshot_failure_amended (inj : Inject) (d : DashState) (p : Panels)
    (hp : d.panels = some p) (hs : d.session = none) :
    tickState inj d = Except.ok { d with panels := some sessionFailPanels } := by
  have h1 : tickState inj d
      = Except.ok { d with panels := some (updateDashboard inj d.session p) } := by
    unfold tickState
    rw [hp]
  rw [h1, hs]
  rfl

/-- C3, witness: a concrete dashboard whose figure exists but whose session
data is inaccessible, ticked once. -/
theorem c3_snapshot_failure_amended_witness :
    tickState noFaults dSessionGone
      = Except.ok { dSessionGone with panels := some sessionFailPanels } :=
  c3_snapshot_failure_amended noFaults dSessionGone (initPanels true) rfl rfl

/-- C5, counterexample: one timer tick on a freshly constructed dashboard
performs zero provider load calls and consumes exactly the session data
loaded at construction - the load count stays at one instead of growing to
two, so no snapshot is produced fresh on the tick. -/
theorem c5_no_reacquisition_counterexample :
    tickState noFaults (initDashboard (some scenarioA) true) = Except.ok dAfterTick ∧
    dAfterTick.loads = (initDashboard (some scenarioA) true).loads ∧
    dAfterTick.loads ≠ (initDashboard (some scenarioA) true).loads + 1 ∧
    dAfterTick.session = (initDashboard (some scenarioA) true).session :=
  ⟨rfl, rfl, by decide, rfl⟩

/-- C5, amended: no refresh tick re-acquires session data - every tick
leaves the provider load count and the session data unchanged, consuming
what `__init__` loaded once; only the separate `fetch_live_positions` loop
performs one provider load per iteration. -/
theorem c5_no_reacquisition_amended :
    (∀ (inj : Inject) (d d' : DashState),
        tickState inj d = Except.ok d' → d'.loads = d.loads ∧ d'.session = d.session) ∧
    (∀ (s : Snapshot) (d : DashState),
        ((fetchLivePositionsIter s d).1).loads = d.loads + 1) := by
  constructor
  · intro inj d d' h
    unfold tickState at h
    rcases hp : d.panels with _ | p
    · rw [hp] at h
      cases h
    · rw [hp] at h
      have h2 := Except.ok.inj h
      rw [← h2]
      exact ⟨rfl, rfl⟩
  · intro s d
    rfl

/-- C5, witness: the amended theorem applied to the concrete post-tick state
of a Scenario A dashboard. -/
theorem c5_no_reacquisition_amended_witness :
    dAfterTick.loads = (initDashboard (some scenarioA) true).loads ∧
    dAfterTick.session = (initDashboard (some scenarioA) true).session :=
  c5_no_reacquisition_amended.1 noFaults (initDashboard (some scenarioA) true) dAfterTick rfl

/-- C2, counterexample: on the two-participant Scenario A snapshot the
standings panel is Ready, yet the rendered pie weights the two slices by the
participants' fastest-lap rank values 2 and 1 (line 169 passes the
`Position` column as the pie's value argument), not by the equal weight 1
for every rank - the two ids do not get equal slices. -/
theorem c2_standings_counterexample :
    (updateDashboard noFaults (some scenarioA) (initPanels true)).ax4.ready = true ∧
    (updateDashboard noFaults (some scenarioA) (initPanels true)).ax4.pieWeights = [2, 1] ∧
    (2 : Nat) ≠ 1 :=
  ⟨by decide, by decide, by decide⟩

/-- C2, amended: for every snapshot in which the standings panel is Ready,
the rendered pie weights each participant's slice by that participant's
fastest-lap rank value (weight(r) = r, proportional to the rank), so slices
are equal only when all shown ranks are equal. -/
theorem c2_standings_amended (s : Snapshot) (p : Panels)
    (h : (updateDashboard noFaults (some s) p).ax4.ready = true) :
    pickFastestTable s = some (participantRows s) ∧
    (updateDashboard noFaults (some s) p).ax4.pieWeights
      = (participantRows s).map (fun r => r.position) := by
  have e4 : (updateDashboard noFaults (some s) p).ax4
      = standAx false ⟨some s, ltDrivers false (some s) (some s.participants)⟩
          (p.ax4.clear) := rfl
  rw [e4] at h ⊢
  rcases hT : pickFastestTable s with _ | rows
  · exfalso
    simp [standAx, hT, naFallback, Axes.ready, Axes.draw, Axes.setTitle, Axes.clear,
      DrawOp.ok] at h
  · obtain ⟨hrows, hne⟩ := pickFastestTable_eq_some hT
    subst hrows
    refine ⟨rfl, ?_⟩
    simp [standAx, hT, ltDrivers, Axes.pieWeights, Axes.draw, Axes.setTitle, Axes.clear,
      List.length_map]

/-- C2, witness: the amended weighting applied to Scenario A. -/
theorem c2_standings_amended_witness :
    pickFastestTable scenarioA = some (participantRows scenarioA) ∧
    (updateDashboard noFaults (some scenarioA) (initPanels true)).ax4.pieWeights
      = (participantRows scenarioA).map (fun r => r.position) :=
  c2_standings_amended scenarioA (initPanels true) (by decide)

/-- C4: for every snapshot, when the lap-times panel is Ready its bar chart
pairs the participants of the fastest-lap table with their fastest lap times
in seconds, every shown participant belongs to the snapshot's participant
set and is mapped to their own fastest lap; and the panel falls back to
Unavailable exactly when no participant has a convertible lap time. -/
theorem c4_lapTimes_contract (s : Snapshot) (p : Panels) :
    ((updateDashboard noFaults (some s) p).ax3.ready = true →
      pickFastestTable s = some (participantRows s) ∧
      (updateDashboard noFaults (some s) p).ax3.ops =
        [DrawOp.bar ((participantRows s).map (fun r => r.participant))
            ((participantRows s).map (fun r => r.lapTime.getD 0)),
         DrawOp.xticklabels ((participantRows s).map (fun r => r.participant)),
         DrawOp.ylabel ("Lap Time (seconds)")] ∧
      ∀ r ∈ participantRows s, r.participant ∈ s.participants ∧
        pickFastestLap (pickDriver s.laps r.participant) = some r) ∧
    ((updateDashboard noFaults (some s) p).ax3.ready = false ↔
      ∀ d ∈ s.participants, ∀ l ∈ pickDriver s.laps d, l.lapTime = none) := by
  have e3 : (updateDashboard noFaults (some s) p).ax3
      = lapAx false (some s) (p.ax3.clear) := rfl
  rw [e3]
  rcases hT : pickFastestTable s with _ | rows
  · have hnil : participantRows s = [] := (pickFastestTable_eq_none_iff s).mp hT
    constructor
    · intro hready
      exfalso
      simp [lapAx, hT, naFallback, Axes.ready, Axes.draw, Axes.setTitle, Axes.clear,
        DrawOp.ok] at hready
    · constructor
      · intro _
        exact (participantRows_eq_nil_iff s).mp hnil
      · intro _
        simp [lapAx, hT, naFallback, Axes.ready, Axes.draw, Axes.setTitle, Axes.clear,
          DrawOp.ok]
  · obtain ⟨hrows, hne⟩ := pickFastestTable_eq_some hT
    subst hrows
    have hready : (lapAx false (some s) (p.ax3.clear)).ready = true := by
      simp [lapAx, hT, Axes.ready, Axes.draw, Axes.setTitle, Axes.clear, DrawOp.ok]
    constructor
    · intro _
      refine ⟨rfl, ?_, participantRows_spec s⟩
      simp [lapAx, hT, Axes.draw, Axes.setTitle, Axes.clear]
    · rw [hready]
      constructor
      · intro hfalse
        simp at hfalse
      · intro hall
        exfalso
        exact hne ((participantRows_eq_nil_iff s).mpr hall)

/-- C4, witness: the contract instantiated on Scenario A, where both
participants have convertible fastest laps. -/
theorem c4_lapTimes_contract_witness :
    pickFastestTable scenarioA = some (participantRows scenarioA) ∧
    (updateDashboard noFaults (some scenarioA) (initPanels true)).ax3.ops =
      [DrawOp.bar ((participantRows scenarioA).map (fun r => r.participant))
          ((participantRows scenarioA).map (fun r => r.lapTime.getD 0)),
       DrawOp.xticklabels ((participantRows scenarioA).map (fun r => r.participant)),
       DrawOp.ylabel ("Lap Time (seconds)")] := by
  have h := (c4_lapTimes_contract scenarioA (initPanels true)).1 (by decide)
  exact ⟨h.1, h.2.1⟩

/-- C6, counterexample: on a snapshot where participant 44 has no lap
records, the per-tick positions panel is not Ready with participant 44
omitted - the unguarded loop of lines 117-121 aborts on the failed
`get_pos_data()` call and the whole panel shows error text over the partial
scatter. -/
theorem c6_positions_counterexample :
    (updateDashboard noFaults (some snapNoLap44) (initPanels true)).ax1.ready = false ∧
    (updateDashboard noFaults (some snapNoLap44) (initPanels true)).ax1.ops =
      [DrawOp.scatter 1 [(0, 0)], DrawOp.errorText noLapMsg] :=
  ⟨by decide, by decide⟩

/-- C6, amended: in the per-tick dashboard the positions panel is Ready
exactly when every participant has a lap with a convertible time (it then
scatters each participant's fastest lap); a participant without one fails
the whole panel rather than being omitted.  Only the one-shot
`plot_driver_positions` has the omission behaviour: every scatter it draws
comes from some participant's latest lap with a non-empty sample
sequence. -/
theorem c6_positions_amended :
    (∀ (s : Snapshot) (p : Panels),
        ((updateDashboard noFaults (some s) p).ax1.ready = true ↔
          ∀ d ∈ s.participants, (pickFastestLap (pickDriver s.laps d)).isSome = true)) ∧
    (∀ (s : Snapshot) (trackOk : Bool) (d : Driver) (pts : List (Int × Int)),
        DrawOp.scatter d pts ∈ plotDriverPositions s trackOk →
          ∃ l, (pickDriver s.laps d).getLast? = some l ∧ pts = l.posSamples ∧
            l.posSamples ≠ []) := by
  constructor
  · intro s p
    have e1 : (updateDashboard noFaults (some s) p).ax1
        = positionsBody s (axTitled ("Live Driver Positions")) := rfl
    rw [e1]
    exact posBody_ready_iff s ("Live Driver Positions")
  · intro s trackOk d pts hmem
    unfold plotDriverPositions at hmem
    rcases List.mem_append.mp hmem with h1 | h2
    · rcases List.mem_append.mp h1 with h0 | hfm
      · exfalso
        cases trackOk <;> simp at h0
      · rcases List.mem_filterMap.mp hfm with ⟨d', _, hls⟩
        rcases hlast : (pickDriver s.laps d').getLast? with _ | lap
        · simp [latestScatter, hlast] at hls
        · simp only [latestScatter, hlast] at hls
          by_cases he : lap.posSamples = []
          · rw [if_pos he] at hls
            cases hls
          · rw [if_neg he] at hls
            have hinj := Option.some.inj hls
            obtain ⟨hd, hpts⟩ := DrawOp.scatter.inj hinj
            subst hd
            exact ⟨lap, hlast, hpts.symm, he⟩
    · exfalso
      simp at h2

/-- C6, witness: on Scenario A every participant has a convertible fastest
lap, so the per-tick positions panel is Ready. -/
theorem c6_positions_amended_witness :
    (updateDashboard noFaults (some scenarioA) (initPanels true)).ax1.ready = true :=
  (c6_positions_amended.1 scenarioA (initPanels true)).mpr (by decide)

/-- C1: per-tick failure isolation.  For every tick whose unfaulted run would
leave the other three panels Ready, making exactly one of the four view
derivations always fail still leaves those three panels Ready that tick:
the injected failure is caught at its own panel's boundary and neither
prevents the other derivations from computing nor panel composition from
completing (the tick is total and every panel branch catches its own
exception, so `plt.tight_layout()` is always reached). -/
theorem c1_fault_isolation (sess : Option Snapshot) (p : Panels) (i : Fault)
    (h : ∀ j : Fault, j ≠ i → ((updateDashboard noFaults sess p).get j).ready = true) :
    ∀ j : Fault, j ≠ i → ((updateDashboard (Inject.single i) sess p).get j).ready = true := by
  intro j hj
  rcases sess with _ | s
  · exfalso
    have hfalse : ∀ j' : Fault, ((updateDashboard noFaults none p).get j').ready = false := by
      intro j'
      cases j' <;> rfl
    have htrue := h j hj
    rw [hfalse j] at htrue
    cases htrue
  · cases i with
    | positions =>
      have e : (updateDashboard (Inject.single Fault.positions) (some s) p).get j
          = (updateDashboard noFaults (some s) p).get j := by
        cases j with
        | positions => exact absurd rfl hj
        | tire => rfl
        | lapTimes => rfl
        | standings => rfl
      rw [e]
      exact h j hj
    | tire =>
      have e : (updateDashboard (Inject.single Fault.tire) (some s) p).get j
          = (updateDashboard noFaults (some s) p).get j := by
        cases j with
        | positions => rfl
        | tire => exact absurd rfl hj
        | lapTimes => rfl
        | standings => rfl
      rw [e]
      exact h j hj
    | standings =>
      have e : (updateDashboard (Inject.single Fault.standings) (some s) p).get j
          = (updateDashboard noFaults (some s) p).get j := by
        cases j with
        | positions => rfl
        | tire => rfl
        | lapTimes => rfl
        | standings => exact absurd rfl hj
      rw [e]
      exact h j hj
    | lapTimes =>
      cases j with
      | positions =>
        have e : (updateDashboard (Inject.single Fault.lapTimes) (some s) p).get Fault.positions
            = (updateDashboard noFaults (some s) p).get Fault.positions := rfl
        rw [e]
        exact h _ hj
      | tire =>
        have e : (updateDashboard (Inject.single Fault.lapTimes) (some s) p).get Fault.tire
            = (updateDashboard noFaults (some s) p).get Fault.tire := rfl
        rw [e]
        exact h _ hj
      | lapTimes => exact absurd rfl hj
      | standings =>
        have h1 := h Fault.positions (by decide)
        have h4 := h Fault.standings (by decide)
        have hall : ∀ d ∈ s.participants,
            (pickFastestLap (pickDriver s.laps d)).isSome = true := by
          have e1 : (updateDashboard noFaults (some s) p).get Fault.positions
              = positionsBody s (axTitled ("Live Driver Positions")) := rfl
          rw [e1] at h1
          exact (posBody_ready_iff s ("Live Driver Positions")).mp h1
        rcases hT : pickFastestTable s with _ | rows
        · exfalso
          have e4 : (updateDashboard noFaults (some s) p).get Fault.standings
              = standAx false ⟨some s, ltDrivers false (some s) (some s.participants)⟩
                  (p.ax4.clear) := rfl
          rw [e4] at h4
          simp [standAx, hT, naFallback, Axes.ready, Axes.draw, Axes.setTitle, Axes.clear,
            DrawOp.ok] at h4
        · obtain ⟨hrows, hne⟩ := pickFastestTable_eq_some hT
          subst hrows
          have hmap : (participantRows s).map (fun r => r.participant) = s.participants :=
            participantRows_map s hall
          have e5 : (updateDashboard (Inject.single Fault.lapTimes) (some s) p).get
                Fault.standings
              = standAx false ⟨some s, some s.participants⟩ (p.ax4.clear) := rfl
          rw [e5]
          have hlen : (participantRows s).length = s.participants.length := by
            rw [← hmap]
            simp
          simp [standAx, hT, Axes.ready, Axes.draw, Axes.setTitle, Axes.clear, DrawOp.ok,
            List.length_map, hlen]

/-- C1, witness: Scenario A with the lap-times derivation forced to fail -
the standings panel (which reads the stale shared `drivers` binding) is
still Ready. -/
theorem c1_fault_isolation_witness :
    ((updateDashboard (Inject.single Fault.lapTimes) (some scenarioA) (initPanels true)).get
        Fault.standings).ready = true :=
  c1_fault_isolation (some scenarioA) (initPanels true) Fault.lapTimes (by decide)
    Fault.standings (by decide)
